import Mathlib

/-!
Shallow embedding of the astrology computation core of the repository
(`src/ml-predicter/src/engines/astrology_engine.py`), together with proofs
of the behavioural properties claimed by the specification.

Python floats are modelled by exact rationals (`ℚ`): every numeric literal
appearing in the source is a short decimal, exactly representable, and no
computation in the verified fragment is sensitive to double rounding at the
decision points considered (all comparisons are at a distance far larger
than any double rounding error).  Python `int(x)` (truncation toward zero)
is modelled by `pytrunc`; Python `%` on floats/ints by the floor-based
`fmod`; Python `//` on ints by `Int.fdiv`.
-/

/-- Python `x % y` on numbers (sign of result follows `y`; for `y > 0` the
result lies in `[0, y)`). -/
def fmod (x y : ℚ) : ℚ := x - y * ⌊x / y⌋

/-- Python `int(x)`: truncation toward zero. -/
def pytrunc (x : ℚ) : ℤ := if 0 ≤ x then ⌊x⌋ else ⌈x⌉

/-! ## Constant tables (module-level data of `astrology_engine.py`) -/

def ZODIAC_SIGNS : List String :=
  ["Aries", "Taurus", "Gemini", "Cancer", "Leo", "Virgo",
   "Libra", "Scorpio", "Sagittarius", "Capricorn", "Aquarius", "Pisces"]

def NAKSHATRAS : List String :=
  ["Ashwini", "Bharani", "Krittika", "Rohini", "Mrigashira",
   "Ardra", "Punarvasu", "Pushya", "Ashlesha", "Magha",
   "Purva Phalguni", "Uttara Phalguni", "Hasta", "Chitra", "Swati",
   "Visakha", "Anuradha", "Jyeshtha", "Mula", "Purva Ashadha",
   "Uttara Ashadha", "Shravana", "Dhanishtha", "Shatabhisha", "Purva Bhadrapada",
   "Uttara Bhadrapada", "Revati"]

def PLANETS : List String :=
  ["Sun", "Moon", "Mercury", "Venus", "Mars", "Jupiter", "Saturn", "Rahu", "Ketu"]

def DASHA_LORDS : List String :=
  ["Ketu", "Venus", "Sun", "Moon", "Mars", "Rahu", "Jupiter", "Saturn", "Mercury"]

/-- The `DASHA_YEARS` dict; unknown keys (which raise `KeyError` in Python
and are never reached by the verified call sites) are mapped to 0. -/
def DASHA_YEARS (lord : String) : ℚ :=
  if lord = "Ketu" then 7
  else if lord = "Venus" then 20
  else if lord = "Sun" then 6
  else if lord = "Moon" then 10
  else if lord = "Mars" then 7
  else if lord = "Rahu" then 18
  else if lord = "Jupiter" then 16
  else if lord = "Saturn" then 19
  else if lord = "Mercury" then 17
  else 0

/-! ## Data model -/

/-- Source `PlanetaryPosition` dataclass.  At runtime the Python code stores an
`int` in `degree`, `minute`, `house` and `nakshatra_pad` (the dataclass type
hints say `float` but are not enforced), so those fields are `ℤ`/`ℕ` here. -/
structure PlanetaryPosition where
  planet : String
  sign : String
  degree : ℤ
  minute : ℤ
  second : ℚ
  house : ℕ
  speed : ℚ
  retrograde : Bool
  nakshatra : String
  nakshatra_pad : ℤ
deriving DecidableEq, Repr

def defaultPlanetaryPosition : PlanetaryPosition :=
  ⟨"", "", 0, 0, 0, 0, 0, false, "", 0⟩

/-! ## `AdvancedAstrologyEngine` -/

/-- Source `calculate_sripati_houses`: divides the asc–MC distance into 6 equal
steps and continues that step for 12 cusps. -/
def calculate_sripati_houses (asc_lon mc_lon : ℚ) : List ℚ :=
  let dist := fmod (mc_lon - asc_lon) 360
  let step := dist / 6
  (List.range 12).map (fun (i : ℕ) => fmod (asc_lon + (i : ℚ) * step) 360)

structure SadeSatiResult where
  active : Bool
  phase : String
  distance : ℚ
deriving DecidableEq, Repr

/-- Source `check_sade_sati`: the two sequential `if` statements that renormalise
`diff` are modelled by the two nested `let`s (the second test sees the
value updated by the first, exactly as in the source). -/
def check_sade_sati (natal_moon_lon current_saturn_lon : ℚ) : SadeSatiResult :=
  let diff0 := current_saturn_lon - natal_moon_lon
  let diff1 := if diff0 > 180 then diff0 - 360 else diff0
  let diff := if diff1 < -180 then diff1 + 360 else diff1
  let is_active := decide (-45 ≤ diff ∧ diff ≤ 45)
  let phase :=
    if -45 ≤ diff ∧ diff < -15 then "First Phase (Rising)"
    else if -15 ≤ diff ∧ diff < 15 then "Peak Phase (Core)"
    else if 15 ≤ diff ∧ diff ≤ 45 then "Final Phase (Setting)"
    else "None"
  ⟨is_active, phase, diff⟩

/-- One entry of the list returned by `get_antardasha`.  The source stores
`current_start.date()` and `end_date.date()`; datetimes are modelled as
rational day counts from a midnight epoch, so `.date()` is `⌊·⌋`. -/
structure AntardashaEntry where
  lord : String
  start : ℤ
  stop : ℤ
deriving DecidableEq, Repr

def defaultAntardashaEntry : AntardashaEntry := ⟨"", 0, 0⟩

/-- The `for i in range(9)` loop of `get_antardasha`, threading
`current_start` (a datetime, in fractional days). -/
def antardasha_loop (m_years : ℚ) (start_idx : ℕ) :
    ℕ → ℕ → ℚ → List AntardashaEntry
  | _, 0, _ => []
  | i, fuel + 1, current_start =>
    let a_lord := DASHA_LORDS.getD ((start_idx + i) % 9) ""
    let a_years := DASHA_YEARS a_lord
    let duration_days := m_years * a_years / 120 * 365.25
    let end_date := current_start + duration_days
    ⟨a_lord, ⌊current_start⌋, ⌊end_date⌋⟩ ::
      antardasha_loop m_years start_idx (i + 1) fuel end_date

/-- Source `get_antardasha`.  Python raises `KeyError`/`ValueError` for a lord not
in the tables; that is modelled as `none`. -/
def get_antardasha (mahadasha_lord : String) (start_date : ℚ) :
    Option (List AntardashaEntry) :=
  if mahadasha_lord ∈ DASHA_LORDS then
    let m_years := DASHA_YEARS mahadasha_lord
    let start_idx := DASHA_LORDS.indexOf mahadasha_lord
    some (antardasha_loop m_years start_idx 0 9 start_date)
  else none

/-! ## `AstrologyCalculator`: temporal conversion -/

/-- A civil datetime, already expressed in UTC.  The source first computes
`utc_dt = dt - timedelta(hours=tz_offset)`; both the code and the spec's
reference algorithm perform that identical subtraction first, so the
embedding works directly with the resulting UTC components (all claims
quantify over every datetime). -/
structure UTCDateTime where
  year : ℤ
  month : ℤ
  day : ℤ
  hour : ℤ
  minute : ℤ
  second : ℤ
deriving DecidableEq, Repr

/-- Source `_gregorian_to_julian_date`, from the point where the UTC components
have been extracted.  `int()` is `pytrunc`, `//` is `Int.fdiv`. -/
def gregorian_to_julian_date (dt : UTCDateTime) : ℚ :=
  let y0 := dt.year
  let m0 := dt.month
  let d : ℚ := dt.day
  let h : ℚ := (dt.hour : ℚ) + (dt.minute : ℚ) / 60 + (dt.second : ℚ) / 3600
  let y : ℤ := if m0 ≤ 2 then y0 - 1 else y0
  let m : ℤ := if m0 ≤ 2 then m0 + 12 else m0
  let A : ℤ := Int.fdiv y 100
  let B : ℤ := 2 - A + Int.fdiv A 4
  let JD : ℚ := (pytrunc (365.25 * ((y : ℚ) + 4716)) : ℚ)
      + (pytrunc (30.6001 * ((m : ℚ) + 1)) : ℚ) + d + (B : ℚ) - 1524.5
  JD + h / 24

/-- Source `_calculate_local_sidereal_time`. -/
def calculate_local_sidereal_time (jd longitude : ℚ) : ℚ :=
  let gmst := fmod (280.46061837 + 360.98564724 * (jd - 2451545.0)) 360
  fmod (gmst + longitude) 360

/-! ## Planetary longitudes and positions -/

/-- Source `_calculate_planet_longitude`. -/
def calculate_planet_longitude (jd : ℚ) (planet : String) : ℚ :=
  let T := (jd - 2451545.0) / 36525
  let lon : ℚ :=
    if planet = "Sun" then 280.4665 + 36000.7698 * T
    else if planet = "Moon" then 218.3165 + 481267.8813 * T
    else if planet = "Mercury" then 252.3 + 149474.0 * T
    else if planet = "Venus" then 181.9797 + 58517.8156 * T
    else if planet = "Mars" then 355.4325 + 19139.8585 * T
    else if planet = "Jupiter" then 34.3515 + 3034.9057 * T
    else if planet = "Saturn" then 50.0452 + 1222.1136 * T
    else if planet = "Rahu" then 351.5449 - 0.0529 * (jd - 2451545.0)
    else if planet = "Ketu" then 171.5449 - 0.0529 * (jd - 2451545.0)
    else 0
  fmod lon 360

/-- Source `_calculate_houses` (returns the 12 cusp signs; entry `i-1` of the list
is house `i` of the Python dict).  The `latitude` parameter is accepted and
never read, exactly as in the source. -/
def calculate_houses (jd latitude longitude : ℚ) : List String :=
  let lst := calculate_local_sidereal_time jd longitude
  (List.range 12).map (fun (k : ℕ) =>
    let i : ℚ := (k : ℚ) + 1
    let cusp_lon := fmod (lst + (i - 1) * 30) 360
    let sign_idx := pytrunc (cusp_lon / 30)
    ZODIAC_SIGNS.getD (sign_idx.emod 12).toNat "")

/-- Source `_calculate_ascendant`. -/
def calculate_ascendant (jd latitude longitude : ℚ) : String :=
  let lst := calculate_local_sidereal_time jd longitude
  let ramc := fmod lst 360
  let asc_lon := fmod (ramc - 90) 360
  let sign_idx := pytrunc (asc_lon / 30)
  ZODIAC_SIGNS.getD (sign_idx.emod 12).toNat ""

/-- Source `_get_house_cusp_longitude`.  (`list.index` raises for a name outside
the table; every call site passes an entry of `ZODIAC_SIGNS`, where
`indexOf` agrees with Python.) -/
def get_house_cusp_longitude (sign : String) : ℚ :=
  ((ZODIAC_SIGNS.indexOf sign : ℕ) : ℚ) * 30

/-- Loop-body predicate of `_get_house`: does longitude `lon_normalized`
fall in the circular cusp range of house `i`? -/
def house_match (houses : List String) (lon_normalized : ℚ) (i : ℕ) : Bool :=
  let next_i := i % 12 + 1
  let house_start := get_house_cusp_longitude (houses.getD (i - 1) "")
  let house_end := get_house_cusp_longitude (houses.getD (next_i - 1) "")
  decide ((house_start ≤ lon_normalized ∧ lon_normalized < house_end) ∨
    (house_start > house_end ∧
      (lon_normalized ≥ house_start ∨ lon_normalized < house_end)))

/-- The search of `_get_house`: first house (1‒12) whose range matches, or
`none` when the loop falls through. -/
def get_house_opt (longitude latitude jd : ℚ) : Option ℕ :=
  let houses := calculate_houses jd latitude 0
  let lon_normalized := fmod longitude 360
  (List.range' 1 12).find? (house_match houses lon_normalized)

/-- Source `_get_house` (the fall-through default is house 1). -/
def get_house (longitude latitude jd : ℚ) : ℕ :=
  (get_house_opt longitude latitude jd).getD 1

/-- Source `_get_nakshatra`. -/
def get_nakshatra (degree : ℚ) : String :=
  let nakshatra_degree : ℚ := 360 / 27
  let nakshatra_idx := pytrunc (degree / nakshatra_degree)
  NAKSHATRAS.getD (nakshatra_idx.emod 27).toNat ""

/-- Body of the per-planet loop of `_calculate_planets`. -/
def planet_position (jd latitude : ℚ) (planet : String) : PlanetaryPosition :=
  let lon := calculate_planet_longitude jd planet
  let sign_idx := pytrunc (lon / 30)
  let degree_in_sign := fmod lon 30
  let degree : ℤ := pytrunc degree_in_sign
  let minute : ℤ := pytrunc ((degree_in_sign - degree) * 60)
  let second : ℚ := ((degree_in_sign - (degree : ℚ)) * 60 - (minute : ℚ)) * 60
  let house := get_house lon latitude jd
  let nakshatra := get_nakshatra degree_in_sign
  let nakshatra_pad : ℤ :=
    pytrunc (fmod degree_in_sign (360 / 27) / (360 / 27 / 4)) + 1
  { planet := planet
    sign := ZODIAC_SIGNS.getD (sign_idx.emod 12).toNat ""
    degree := degree
    minute := minute
    second := second
    house := house
    speed := 0
    retrograde := false
    nakshatra := nakshatra
    nakshatra_pad := nakshatra_pad }

/-- Python `str.lower()` (ASCII suffices for the planet names it is
applied to). -/
def pylower (s : String) : String := ⟨s.data.map Char.toLower⟩

/-- Source `_calculate_planets`: dict keyed by `planet.lower()`, modelled as an
association list in insertion order.  The `longitude` parameter is accepted
and never read, exactly as in the source. -/
def calculate_planets (jd latitude longitude : ℚ) :
    List (String × PlanetaryPosition) :=
  PLANETS.map (fun p => (pylower p, planet_position jd latitude p))

/-- Python `planets[key]` on the position dict.  Every verified call site
looks up a key that is present; a missing key (a `KeyError` in Python) is
mapped to `defaultPlanetaryPosition`. -/
def pget (planets : List (String × PlanetaryPosition)) (key : String) :
    PlanetaryPosition :=
  (List.lookup key planets).getD defaultPlanetaryPosition

/-! ## Dasha -/

structure DashaInfo where
  lord : String
  period : String
  duration_years : ℚ
  remaining_years : ℚ
  sequence : List String
deriving DecidableEq, Repr

/-- Source `_calculate_dasha` (the `start_date` entry of the returned dict is the
caller-supplied birth time serialised to a string and is not modelled). -/
def calculate_dasha (moon_nakshatra : String) : DashaInfo :=
  let nakshatra_idx := NAKSHATRAS.indexOf moon_nakshatra
  let dasha_lord_idx := nakshatra_idx % 9
  let current_lord := DASHA_LORDS.getD dasha_lord_idx ""
  let remaining_fraction : ℚ := 0.5
  let remaining_years := DASHA_YEARS current_lord * remaining_fraction
  { lord := current_lord
    period := current_lord ++ " Mahadasha"
    duration_years := DASHA_YEARS current_lord
    remaining_years := remaining_years
    sequence := DASHA_LORDS }

/-! ## Rule engine: yogas -/

/-- Source `_check_gaja_kesari`. -/
def check_gaja_kesari (jupiter moon : PlanetaryPosition) : Bool :=
  decide (jupiter.house ∈ [1, 4, 7, 10]) && decide (moon.house ∈ [1, 4, 7, 10])

/-- Source `_check_parivarthan`. -/
def check_parivarthan (_planets : List (String × PlanetaryPosition)) : Bool :=
  false

/-- Source `_check_dhana_yoga`. -/
def check_dhana_yoga (planets : List (String × PlanetaryPosition)) : Bool :=
  let house_2_planets := planets.filter (fun p => p.2.house == 2)
  let house_11_planets := planets.filter (fun p => p.2.house == 11)
  decide (house_2_planets.length > 0) && decide (house_11_planets.length > 0)

/-- Source `_check_gajakesari` (the secondary, degree-difference formulation). -/
def check_gajakesari (planets : List (String × PlanetaryPosition)) : Bool :=
  decide (|(pget planets "jupiter").degree - (pget planets "moon").degree| ≤ 30)

/-- Source `_detect_yogas`: the sequence of conditional `append`s, in source
order. -/
def detect_yogas (planets : List (String × PlanetaryPosition))
    (_houses : List String) (_ascendant : String) : List String :=
  (if (pget planets "jupiter").house ∈ [1, 4, 7, 10] then ["Raj Yoga"] else [])
  ++ (if check_gaja_kesari (pget planets "jupiter") (pget planets "moon")
      then ["Gaja Kesari Yoga"] else [])
  ++ (if check_parivarthan planets then ["Parivarthan Yoga"] else [])
  ++ (if check_dhana_yoga planets then ["Dhana Yoga"] else [])
  ++ (if check_gajakesari planets then ["Gaja Kesari Yoga"] else [])

/-! ## Rule engine: doshas -/

structure DoshaRecord where
  name : String
  severity : String
  description : String
  remedies : List String
deriving DecidableEq, Repr

/-- Source `_calculate_dosha_severity`. -/
def calculate_dosha_severity (planet : PlanetaryPosition) : String :=
  if planet.house ∈ [8] then "high"
  else if planet.house ∈ [2, 12] then "medium"
  else "low"

/-- Source `_check_kaal_sarp`. -/
def check_kaal_sarp (planets : List (String × PlanetaryPosition)) : Bool :=
  let rahu_degree := (pget planets "rahu").degree
  let ketu_degree := (pget planets "ketu").degree
  decide (|rahu_degree - ketu_degree| > 170)

/-- Source `_check_pitra_dosha`. -/
def check_pitra_dosha (planets : List (String × PlanetaryPosition)) : Bool :=
  let sun_degree := (pget planets "sun").degree
  let saturn_degree := (pget planets "saturn").degree
  let diff := |sun_degree - saturn_degree|
  decide (diff ≤ 10) || decide (diff ≥ 350)

/-- Source `_detect_doshas`. -/
def detect_doshas (planets : List (String × PlanetaryPosition))
    (_houses : List String) : List DoshaRecord :=
  (if (pget planets "mars").house ∈ [1, 2, 4, 7, 8, 12] then
    [{ name := "Mangal Dosha"
       severity := calculate_dosha_severity (pget planets "mars")
       description := "Mars in inauspicious house"
       remedies := ["Wear red coral", "Recite Hanuman Chalisa daily"] }]
   else [])
  ++ (if check_kaal_sarp planets then
    [{ name := "Kaal Sarp Dosha", severity := "medium"
       description := "Rahu-Ketu on nodal axis"
       remedies := ["Perform Nag Puja", "Worship Lord Shiva"] }]
   else [])
  ++ (if check_pitra_dosha planets then
    [{ name := "Pitra Dosha", severity := "medium"
       description := "Indicates ancestral debts"
       remedies := ["Perform Pitra Shradh", "Help the needy"] }]
   else [])

/-! ## Chart aggregation -/

/-- Source `BirthChartData` dataclass; `calculated_at` (a `datetime.now()` call in
the source) is modelled as the ambient clock value passed in by the
caller. -/
structure BirthChartData where
  planets : List (String × PlanetaryPosition)
  houses : List String
  ascendant : String
  moon_nakshatra : String
  current_dasha : String
  current_dasha_lord : String
  yogas : List String
  doshas : List DoshaRecord
  calculated_at : ℚ
deriving DecidableEq, Repr

/-- Source `calculate_birth_chart`.  The body performs no validation of `latitude`
or `longitude` and has no failure path for any input (the `try/except`
merely re-raises), so it is a total function.  `birth_datetime` is the UTC
datetime (see `UTCDateTime`); `now` models `datetime.now()`. -/
def calculate_birth_chart (birth_datetime : UTCDateTime)
    (latitude longitude : ℚ) (now : ℚ) : BirthChartData :=
  let jd := gregorian_to_julian_date birth_datetime
  let planets := calculate_planets jd latitude longitude
  let houses := calculate_houses jd latitude longitude
  let ascendant := calculate_ascendant jd latitude longitude
  let moon_planet := pget planets "moon"
  let moon_nakshatra := get_nakshatra (moon_planet.degree : ℚ)
  let current_dasha := calculate_dasha moon_nakshatra
  let yogas := detect_yogas planets houses ascendant
  let doshas := detect_doshas planets houses
  { planets := planets
    houses := houses
    ascendant := ascendant
    moon_nakshatra := moon_nakshatra
    current_dasha := current_dasha.period
    current_dasha_lord := current_dasha.lord
    yogas := yogas
    doshas := doshas
    calculated_at := now }

/-! ## Spec-side reference definition (for the refinement claim on the
temporal converter) -/

/-- The Gregorian→Julian-Date reference algorithm exactly as the spec words
it: for month ≤ 2 decrement year and add 12 to month; A = floor(year/100),
B = 2 − A + floor(A/4); JD = floor(365.25×(year+4716)) +
floor(30.6001×(month+1)) + day + B − 1524.5 +
(hour + minute/60 + second/3600)/24.  All floors are real (rational)
floors, written solely from the spec's words. -/
def julian_date_spec (dt : UTCDateTime) : ℚ :=
  let y : ℚ := if dt.month ≤ 2 then (dt.year : ℚ) - 1 else (dt.year : ℚ)
  let m : ℚ := if dt.month ≤ 2 then (dt.month : ℚ) + 12 else (dt.month : ℚ)
  let A : ℚ := (⌊y / 100⌋ : ℚ)
  let B : ℚ := 2 - A + (⌊A / 4⌋ : ℚ)
  (⌊(365.25 : ℚ) * (y + 4716)⌋ : ℚ) + (⌊(30.6001 : ℚ) * (m + 1)⌋ : ℚ)
    + (dt.day : ℚ) + B - 1524.5
    + ((dt.hour : ℚ) + (dt.minute : ℚ) / 60 + (dt.second : ℚ) / 3600) / 24

/-! ## Shared helper lemmas -/

theorem fmod_nonneg (x : ℚ) {y : ℚ} (hy : 0 < y) : 0 ≤ fmod x y := by
  have h := Int.floor_le (x / y)
  have : (⌊x / y⌋ : ℚ) * y ≤ x := by
    calc (⌊x / y⌋ : ℚ) * y ≤ (x / y) * y := by
          exact mul_le_mul_of_nonneg_right h (le_of_lt hy)
      _ = x := by field_simp
  unfold fmod; linarith [this]

theorem fmod_lt (x : ℚ) {y : ℚ} (hy : 0 < y) : fmod x y < y := by
  have h := Int.lt_floor_add_one (x / y)
  have : x < ((⌊x / y⌋ : ℚ) + 1) * y := by
    calc x = (x / y) * y := by field_simp
      _ < ((⌊x / y⌋ : ℚ) + 1) * y := by
          exact mul_lt_mul_of_pos_right h hy
  unfold fmod; nlinarith [this]

theorem fmod_eq_self {x y : ℚ} (hy : 0 < y) (h0 : 0 ≤ x) (h1 : x < y) :
    fmod x y = x := by
  have : ⌊x / y⌋ = 0 := by
    rw [Int.floor_eq_zero_iff]
    constructor
    · exact div_nonneg h0 (le_of_lt hy)
    · rw [div_lt_one hy]; exact h1
  unfold fmod; rw [this]; ring

/-- Adding an integer multiple of the modulus does not change `fmod`. -/
theorem fmod_add_int_mul (x : ℚ) {y : ℚ} (hy : 0 < y) (k : ℤ) :
    fmod (x + k * y) y = fmod x y := by
  unfold fmod
  have : (x + k * y) / y = x / y + k := by field_simp
  rw [this, Int.floor_add_int]
  push_cast
  ring

theorem pytrunc_eq_floor {x : ℚ} (h : 0 ≤ x) : pytrunc x = ⌊x⌋ := by
  unfold pytrunc; rw [if_pos h]

theorem calculate_planet_longitude_nonneg (jd : ℚ) (p : String) :
    0 ≤ calculate_planet_longitude jd p := by
  unfold calculate_planet_longitude
  exact fmod_nonneg _ (by norm_num)

theorem calculate_planet_longitude_lt (jd : ℚ) (p : String) :
    calculate_planet_longitude jd p < 360 := by
  unfold calculate_planet_longitude
  exact fmod_lt _ (by norm_num)

theorem planet_position_degree_eq (jd lat : ℚ) (p : String) :
    (planet_position jd lat p).degree =
      pytrunc (fmod (calculate_planet_longitude jd p) 30) := rfl

theorem planet_position_degree_bounds (jd lat : ℚ) (p : String) :
    0 ≤ (planet_position jd lat p).degree ∧
      (planet_position jd lat p).degree ≤ 29 := by
  rw [planet_position_degree_eq]
  have h0 : 0 ≤ fmod (calculate_planet_longitude jd p) 30 :=
    fmod_nonneg _ (by norm_num)
  have h1 : fmod (calculate_planet_longitude jd p) 30 < 30 :=
    fmod_lt _ (by norm_num)
  rw [pytrunc_eq_floor h0]
  constructor
  · exact Int.floor_nonneg.mpr h0
  · have : ⌊fmod (calculate_planet_longitude jd p) 30⌋ < 30 :=
      Int.floor_lt.mpr (by exact_mod_cast h1)
    omega

theorem pget_calculate_planets_sun (jd lat lon : ℚ) :
    pget (calculate_planets jd lat lon) "sun" = planet_position jd lat "Sun" := rfl

theorem pget_calculate_planets_moon (jd lat lon : ℚ) :
    pget (calculate_planets jd lat lon) "moon" = planet_position jd lat "Moon" := rfl

theorem pget_calculate_planets_mars (jd lat lon : ℚ) :
    pget (calculate_planets jd lat lon) "mars" = planet_position jd lat "Mars" := rfl

theorem pget_calculate_planets_jupiter (jd lat lon : ℚ) :
    pget (calculate_planets jd lat lon) "jupiter" =
      planet_position jd lat "Jupiter" := rfl

theorem pget_calculate_planets_saturn (jd lat lon : ℚ) :
    pget (calculate_planets jd lat lon) "saturn" =
      planet_position jd lat "Saturn" := rfl

theorem pget_calculate_planets_rahu (jd lat lon : ℚ) :
    pget (calculate_planets jd lat lon) "rahu" = planet_position jd lat "Rahu" := rfl

theorem pget_calculate_planets_ketu (jd lat lon : ℚ) :
    pget (calculate_planets jd lat lon) "ketu" = planet_position jd lat "Ketu" := rfl

/-- The axis-opposition check is structurally dead in the failing direction:
degrees stored by the engine are truncated degrees-in-sign in `[0, 29]`. -/
theorem check_kaal_sarp_calculate_planets (jd lat lon : ℚ) :
    check_kaal_sarp (calculate_planets jd lat lon) = false := by
  unfold check_kaal_sarp
  rw [pget_calculate_planets_rahu, pget_calculate_planets_ketu]
  have hr := planet_position_degree_bounds jd lat "Rahu"
  have hk := planet_position_degree_bounds jd lat "Ketu"
  simp only [decide_eq_false_iff_not, not_lt]
  rw [abs_le]
  omega

/-! ## Claim C1: axis-opposition (Kaal Sarp) rule -/

/-- C1 counterexample: at the J2000 Julian Date (with the coordinates of the
spec's own example scenario) `_check_kaal_sarp` returns `false` on the
engine-produced planetary positions, refuting the claim that it returns
`true` on every valid input. -/
theorem kaal_sarp_claim_counterexample :
    check_kaal_sarp (calculate_planets 2451545 19 72) = false := by
  with_unfolding_all rfl

/-- C1 (amended): the axis-opposition rule is dead in the opposite
direction to the one claimed: the `degree` fields it compares are truncated
degrees-in-sign lying in `[0, 29]`, so the absolute difference never
exceeds the 170° threshold and `_check_kaal_sarp` returns `false` on every
planetary-position set produced by the engine (the 180° node opposition is
invisible modulo 30). -/
theorem kaal_sarp_always_false (jd lat lon : ℚ) :
    check_kaal_sarp (calculate_planets jd lat lon) = false :=
  check_kaal_sarp_calculate_planets jd lat lon

/-! ## Claim C9: planetary positions ignore latitude and longitude -/

/-- C9: for a fixed Julian Date, `_calculate_planets` returns identical
position maps for any two (latitude, longitude) pairs: the geographic
longitude parameter is never read, and the per-planet house lookup fixes
longitude to 0 while `_calculate_houses` never reads latitude.  The
equality is definitional in the embedding precisely because those
parameters are dead in the source. -/
theorem calculate_planets_ignores_location (jd lat1 lon1 lat2 lon2 : ℚ) :
    calculate_planets jd lat1 lon1 = calculate_planets jd lat2 lon2 := rfl

/-! ## Claim C3: no rejection of out-of-range coordinates -/

/-- C3 counterexample: with latitude 200 (outside [−90, 90]) and longitude
500 (outside [−180, 180]) the chart computation is not rejected: it
produces a complete result with 9 planetary positions, a 12-entry house
table and a well-formed ascendant sign. -/
theorem birth_chart_out_of_range_counterexample :
    (calculate_birth_chart ⟨1990, 5, 15, 9, 0, 0⟩ 200 500 0).planets.length = 9 ∧
    (calculate_birth_chart ⟨1990, 5, 15, 9, 0, 0⟩ 200 500 0).houses.length = 12 ∧
    (calculate_birth_chart ⟨1990, 5, 15, 9, 0, 0⟩ 200 500 0).ascendant
      ∈ ZODIAC_SIGNS := by
  refine ⟨rfl, rfl, ?_⟩
  with_unfolding_all decide

/-- C3 (amended): `calculate_birth_chart` performs no range validation on
latitude or longitude: for every input, including out-of-range coordinates,
it runs to completion and produces a full chart (9 planetary positions and
a 12-entry house table); no rejection path exists. -/
theorem birth_chart_total_no_validation (dt : UTCDateTime)
    (lat lon now : ℚ) :
    (calculate_birth_chart dt lat lon now).planets.length = 9 ∧
    (calculate_birth_chart dt lat lon now).houses.length = 12 := ⟨rfl, rfl⟩

/-! ## Claim C5: Sade Sati -/

/-- C5 counterexample: for natal Moon 180° and transiting Saturn 0° the
computed distance is −180, which lies outside the claimed normalisation
codomain (−180, 180]. -/
theorem sade_sati_claim_counterexample :
    (check_sade_sati 180 0).distance = -180 ∧
    ¬ (-180 < (check_sade_sati 180 0).distance) := by
  with_unfolding_all decide

/-- C5 (amended): for longitudes in [0, 360) the signed distance is
normalised into the closed interval [−180, 180] (the endpoint −180 does
occur, when the raw difference is exactly −180); the check is active
exactly when |distance| ≤ 45, and the three equal 30°-wide phases are
labelled by sub-range: [−45, −15) rising, [−15, 15) peak, [15, 45]
setting, and anything inactive is labelled "None". -/
theorem check_sade_sati_spec (natal cur : ℚ)
    (hn0 : 0 ≤ natal) (hn1 : natal < 360) (hc0 : 0 ≤ cur) (hc1 : cur < 360) :
    (-180 ≤ (check_sade_sati natal cur).distance ∧
      (check_sade_sati natal cur).distance ≤ 180) ∧
    ((check_sade_sati natal cur).active = true ↔
      |(check_sade_sati natal cur).distance| ≤ 45) ∧
    (-45 ≤ (check_sade_sati natal cur).distance ∧
        (check_sade_sati natal cur).distance < -15 →
      (check_sade_sati natal cur).phase = "First Phase (Rising)") ∧
    (-15 ≤ (check_sade_sati natal cur).distance ∧
        (check_sade_sati natal cur).distance < 15 →
      (check_sade_sati natal cur).phase = "Peak Phase (Core)") ∧
    (15 ≤ (check_sade_sati natal cur).distance ∧
        (check_sade_sati natal cur).distance ≤ 45 →
      (check_sade_sati natal cur).phase = "Final Phase (Setting)") ∧
    (¬ (-45 ≤ (check_sade_sati natal cur).distance ∧
        (check_sade_sati natal cur).distance ≤ 45) →
      (check_sade_sati natal cur).active = false ∧
      (check_sade_sati natal cur).phase = "None") := by
  have hd : (check_sade_sati natal cur).distance =
      (if (if cur - natal > 180 then cur - natal - 360 else cur - natal)
          < -180 then
        (if cur - natal > 180 then cur - natal - 360 else cur - natal) + 360
      else
        (if cur - natal > 180 then cur - natal - 360 else cur - natal)) := rfl
  have ha : (check_sade_sati natal cur).active =
      decide (-45 ≤ (check_sade_sati natal cur).distance ∧
        (check_sade_sati natal cur).distance ≤ 45) := rfl
  have hp : (check_sade_sati natal cur).phase =
      (if -45 ≤ (check_sade_sati natal cur).distance ∧
          (check_sade_sati natal cur).distance < -15 then
        "First Phase (Rising)"
      else if -15 ≤ (check_sade_sati natal cur).distance ∧
          (check_sade_sati natal cur).distance < 15 then
        "Peak Phase (Core)"
      else if 15 ≤ (check_sade_sati natal cur).distance ∧
          (check_sade_sati natal cur).distance ≤ 45 then
        "Final Phase (Setting)"
      else "None") := rfl
  refine ⟨?_, ?_, ?_, ?_, ?_, ?_⟩
  · rw [hd]
    split_ifs with h1 h2 h3 <;> constructor <;> linarith
  · rw [ha, decide_eq_true_iff]
    exact (abs_le).symm
  · intro h
    rw [hp, if_pos h]
  · intro h
    rw [hp, if_neg (fun hc : _ ∧ _ => by linarith [hc.2, h.1]), if_pos h]
  · intro h
    rw [hp, if_neg (fun hc : _ ∧ _ => by linarith [hc.2, h.1]),
      if_neg (fun hc : _ ∧ _ => by linarith [hc.2, h.1]), if_pos h]
  · intro h
    push_neg at h
    refine ⟨?_, ?_⟩
    · rw [ha]
      simp only [decide_eq_false_iff_not, not_and, not_le]
      exact h
    · rw [hp, if_neg (fun hc : _ ∧ _ => by linarith [h hc.1, hc.2]),
        if_neg (fun hc : _ ∧ _ => by linarith [h (by linarith [hc.1]), hc.2]),
        if_neg (fun hc : _ ∧ _ => by linarith [h (by linarith [hc.1]), hc.2])]

/-- C5 witness: the theorem applied at natal Moon 10°, Saturn 350°
(distance −20, rising phase). -/
theorem check_sade_sati_spec_witness :
    (0:ℚ) ≤ 10 ∧ (10:ℚ) < 360 ∧ (0:ℚ) ≤ 350 ∧ (350:ℚ) < 360 ∧
    ((-180 ≤ (check_sade_sati 10 350).distance ∧
      (check_sade_sati 10 350).distance ≤ 180) ∧
    ((check_sade_sati 10 350).active = true ↔
      |(check_sade_sati 10 350).distance| ≤ 45) ∧
    (-45 ≤ (check_sade_sati 10 350).distance ∧
        (check_sade_sati 10 350).distance < -15 →
      (check_sade_sati 10 350).phase = "First Phase (Rising)") ∧
    (-15 ≤ (check_sade_sati 10 350).distance ∧
        (check_sade_sati 10 350).distance < 15 →
      (check_sade_sati 10 350).phase = "Peak Phase (Core)") ∧
    (15 ≤ (check_sade_sati 10 350).distance ∧
        (check_sade_sati 10 350).distance ≤ 45 →
      (check_sade_sati 10 350).phase = "Final Phase (Setting)") ∧
    (¬ (-45 ≤ (check_sade_sati 10 350).distance ∧
        (check_sade_sati 10 350).distance ≤ 45) →
      (check_sade_sati 10 350).active = false ∧
      (check_sade_sati 10 350).phase = "None")) :=
  ⟨by norm_num, by norm_num, by norm_num, by norm_num,
    check_sade_sati_spec 10 350 (by norm_num) (by norm_num) (by norm_num)
      (by norm_num)⟩

/-! ## Claim C6: Sripati house cusps -/

theorem sripati_getD (asc mc : ℚ) (i : ℕ) (hi : i < 12) :
    (calculate_sripati_houses asc mc).getD i 0 =
      fmod (asc + (i : ℚ) * (fmod (mc - asc) 360 / 6)) 360 := by
  unfold calculate_sripati_houses
  simp [List.getD_eq_getElem?_getD, List.getElem?_range, hi]

/-- C6 counterexample: for ascendant 0° and midheaven 90°, cusp 6 is 90°
while cusp 0 + 180° is 180°: the claimed mirror relation
`cusp (i+6) = cusp i + 180 (mod 360)` fails. -/
theorem sripati_claim_counterexample :
    (calculate_sripati_houses 0 90).getD 6 0 = 90 ∧
    fmod ((calculate_sripati_houses 0 90).getD 0 0 + 180) 360 = 180 ∧
    (90 : ℚ) ≠ 180 := by
  with_unfolding_all decide

/-- C6 (amended): the Sripati calculator divides the asc→MC angular
distance `dist = (mc − asc) mod 360` into 6 equal steps and continues that
same step for all 12 cusps (no mirroring): in the returned 12-cusp list,
cusp (i+6) = cusp i + dist (mod 360) for i = 0..5; the claimed +180°
relation is the special case dist = 180. -/
theorem sripati_cusp_relation (asc mc : ℚ) (i : ℕ) (hi : i < 6) :
    (calculate_sripati_houses asc mc).length = 12 ∧
    (calculate_sripati_houses asc mc).getD (i + 6) 0 =
      fmod ((calculate_sripati_houses asc mc).getD i 0 + fmod (mc - asc) 360)
        360 := by
  constructor
  · unfold calculate_sripati_houses
    simp
  · rw [sripati_getD _ _ i (by omega), sripati_getD _ _ (i + 6) (by omega)]
    set D := fmod (mc - asc) 360 with hD
    have key : fmod (asc + (i : ℚ) * (D / 6)) 360 + D =
        (asc + ((i + 6 : ℕ) : ℚ) * (D / 6)) +
          ((-⌊(asc + (i : ℚ) * (D / 6)) / 360⌋ : ℤ) : ℚ) * 360 := by
      unfold fmod
      push_cast
      ring
    rw [key, fmod_add_int_mul _ (by norm_num)]

/-- C6 witness: the amended relation at ascendant 0°, midheaven 90°,
cusp pair (0, 6). -/
theorem sripati_cusp_relation_witness :
    0 < 6 ∧
    ((calculate_sripati_houses 0 90).length = 12 ∧
    (calculate_sripati_houses 0 90).getD (0 + 6) 0 =
      fmod ((calculate_sripati_houses 0 90).getD 0 0 + fmod (90 - 0) 360)
        360) :=
  ⟨by norm_num, sripati_cusp_relation 0 90 0 (by norm_num)⟩

/-! ## Claim C10: Gaja Kesari Yoga is always flagged -/

theorem check_gajakesari_always_true (jd lat lon : ℚ) :
    check_gajakesari (calculate_planets jd lat lon) = true := by
  unfold check_gajakesari
  rw [pget_calculate_planets_jupiter, pget_calculate_planets_moon]
  have hj := planet_position_degree_bounds jd lat "Jupiter"
  have hm := planet_position_degree_bounds jd lat "Moon"
  simp only [decide_eq_true_iff]
  rw [abs_le]
  omega

theorem birth_chart_planets_eq (dt : UTCDateTime) (lat lon now : ℚ) :
    (calculate_birth_chart dt lat lon now).planets =
      calculate_planets (gregorian_to_julian_date dt) lat lon := rfl

theorem birth_chart_yogas_eq (dt : UTCDateTime) (lat lon now : ℚ) :
    (calculate_birth_chart dt lat lon now).yogas =
      detect_yogas (calculate_planets (gregorian_to_julian_date dt) lat lon)
        (calculate_houses (gregorian_to_julian_date dt) lat lon)
        (calculate_ascendant (gregorian_to_julian_date dt) lat lon) := rfl

/-- C10: every chart produced by `calculate_birth_chart` carries
"Gaja Kesari Yoga" in its yogas list, because each stored `degree` field is
a truncated degree-in-sign in [0, 29], so the secondary degree-difference
check |jupiter.degree − moon.degree| ≤ 30 holds for every input. -/
theorem gaja_kesari_always_in_yogas (dt : UTCDateTime) (lat lon now : ℚ)
    (p : String) (pos : PlanetaryPosition)
    (hmem : (p, pos) ∈ (calculate_birth_chart dt lat lon now).planets) :
    (0 ≤ pos.degree ∧ pos.degree ≤ 29) ∧
    "Gaja Kesari Yoga" ∈ (calculate_birth_chart dt lat lon now).yogas := by
  constructor
  · rw [birth_chart_planets_eq] at hmem
    unfold calculate_planets at hmem
    rcases List.mem_map.mp hmem with ⟨q, _, hq⟩
    have hpos : planet_position (gregorian_to_julian_date dt) lat q = pos :=
      congrArg Prod.snd hq
    rw [← hpos]
    exact planet_position_degree_bounds (gregorian_to_julian_date dt) lat q
  · rw [birth_chart_yogas_eq]
    unfold detect_yogas
    rw [check_gajakesari_always_true]
    simp

/-- C10 witness: the Sun entry of the chart for 2000-01-01 12:00 UTC at
(0, 0). -/
theorem gaja_kesari_always_in_yogas_witness :
    (("sun", planet_position (gregorian_to_julian_date ⟨2000, 1, 1, 12, 0, 0⟩)
        0 "Sun") ∈
      (calculate_birth_chart ⟨2000, 1, 1, 12, 0, 0⟩ 0 0 0).planets) ∧
    ((0 ≤ (planet_position (gregorian_to_julian_date ⟨2000, 1, 1, 12, 0, 0⟩)
        0 "Sun").degree ∧
      (planet_position (gregorian_to_julian_date ⟨2000, 1, 1, 12, 0, 0⟩)
        0 "Sun").degree ≤ 29) ∧
    "Gaja Kesari Yoga" ∈
      (calculate_birth_chart ⟨2000, 1, 1, 12, 0, 0⟩ 0 0 0).yogas) :=
  ⟨by with_unfolding_all decide,
    gaja_kesari_always_in_yogas ⟨2000, 1, 1, 12, 0, 0⟩ 0 0 0 "sun" _
      (by with_unfolding_all decide)⟩

/-! ## Claim C2: nakshatra indexing -/

theorem get_nakshatra_mem_first_three (d : ℚ) (h0 : 0 ≤ d) (h1 : d < 30) :
    get_nakshatra d ∈ ["Ashwini", "Bharani", "Krittika"] := by
  have hdiv : 0 ≤ d / (360 / 27 : ℚ) := by positivity
  show NAKSHATRAS.getD ((pytrunc (d / (360 / 27 : ℚ))).emod 27).toNat "" ∈ _
  rw [pytrunc_eq_floor hdiv]
  set n := ⌊d / (360 / 27 : ℚ)⌋ with hn
  have h2 : 0 ≤ n := Int.floor_nonneg.mpr hdiv
  have h3 : n < 3 := by
    rw [hn]
    apply Int.floor_lt.mpr
    rw [div_lt_iff (by norm_num)]
    push_cast
    linarith
  interval_cases n <;> with_unfolding_all decide

theorem planet_position_pad_bounds (jd lat : ℚ) (p : String) :
    1 ≤ (planet_position jd lat p).nakshatra_pad ∧
      (planet_position jd lat p).nakshatra_pad ≤ 4 := by
  have hpad : (planet_position jd lat p).nakshatra_pad =
      pytrunc (fmod (fmod (calculate_planet_longitude jd p) 30) (360 / 27) /
        (360 / 27 / 4)) + 1 := rfl
  rw [hpad]
  set e := fmod (fmod (calculate_planet_longitude jd p) 30) (360 / 27) with he
  have he0 : 0 ≤ e := fmod_nonneg _ (by norm_num)
  have he1 : e < 360 / 27 := fmod_lt _ (by norm_num)
  have hq0 : 0 ≤ e / (360 / 27 / 4 : ℚ) := by positivity
  have hq1 : e / (360 / 27 / 4 : ℚ) < 4 := by
    rw [div_lt_iff (by norm_num)]
    linarith
  rw [pytrunc_eq_floor hq0]
  have hf0 := Int.floor_nonneg.mpr hq0
  have hf1 : ⌊e / (360 / 27 / 4 : ℚ)⌋ < 4 :=
    Int.floor_lt.mpr (by exact_mod_cast hq1)
  omega

/-- C2 counterexample: at the J2000 Julian Date the Moon's full ecliptic
longitude is 218.3165°, whose 13°20′ segment is index 16 ("Anuradha"); the
engine nevertheless assigns "Ashwini" (index 0), both per-planet and in the
chart-level Moon nakshatra, because it indexes with the degree-in-sign
rather than the full longitude. -/
theorem nakshatra_claim_counterexample :
    calculate_planet_longitude 2451545 "Moon" = 218.3165 ∧
    (pytrunc ((218.3165 : ℚ) / (360 / 27))).toNat = 16 ∧
    NAKSHATRAS.getD 16 "" = "Anuradha" ∧
    (planet_position 2451545 0 "Moon").nakshatra = "Ashwini" ∧
    (calculate_birth_chart ⟨2000, 1, 1, 12, 0, 0⟩ 0 0 0).moon_nakshatra =
      "Ashwini" ∧
    "Ashwini" ≠ "Anuradha" := by
  refine ⟨?_, ?_, ?_, ?_, ?_, ?_⟩
  · with_unfolding_all rfl
  · with_unfolding_all rfl
  · with_unfolding_all rfl
  · with_unfolding_all rfl
  · with_unfolding_all rfl
  · decide

/-- C2 (amended): the nakshatra the engine assigns to a body is computed
from the degree-in-sign (the full longitude reduced mod 30), not from the
full longitude: it equals `_get_nakshatra (L mod 30)`, and consequently is
always one of the first three table entries (Ashwini, Bharani, Krittika).
The Moon's chart-level nakshatra is likewise computed from the truncated
integer degree-in-sign stored in the position, and pada is still an index
in 1..4. -/
theorem nakshatra_from_degree_in_sign (jd lat : ℚ) (p : String)
    (dt : UTCDateTime) (lat2 lon2 now : ℚ) :
    (planet_position jd lat p).nakshatra =
      get_nakshatra (fmod (calculate_planet_longitude jd p) 30) ∧
    (planet_position jd lat p).nakshatra ∈ ["Ashwini", "Bharani", "Krittika"] ∧
    (1 ≤ (planet_position jd lat p).nakshatra_pad ∧
      (planet_position jd lat p).nakshatra_pad ≤ 4) ∧
    (calculate_birth_chart dt lat2 lon2 now).moon_nakshatra =
      get_nakshatra
        (((pget (calculate_birth_chart dt lat2 lon2 now).planets "moon").degree
          : ℚ)) ∧
    (calculate_birth_chart dt lat2 lon2 now).moon_nakshatra
      ∈ ["Ashwini", "Bharani", "Krittika"] := by
  refine ⟨rfl, ?_, planet_position_pad_bounds jd lat p, rfl, ?_⟩
  · show get_nakshatra (fmod (calculate_planet_longitude jd p) 30) ∈ _
    exact get_nakshatra_mem_first_three _ (fmod_nonneg _ (by norm_num))
      (fmod_lt _ (by norm_num))
  · show get_nakshatra
      (((planet_position (gregorian_to_julian_date dt) lat2 "Moon").degree
        : ℚ)) ∈ _
    have hb := planet_position_degree_bounds (gregorian_to_julian_date dt)
      lat2 "Moon"
    apply get_nakshatra_mem_first_three
    · exact_mod_cast hb.1
    · have : ((planet_position (gregorian_to_julian_date dt) lat2
          "Moon").degree : ℚ) ≤ 29 := by exact_mod_cast hb.2
      linarith


/-! ## Claim C7: temporal converter matches the reference algorithm -/

theorem floor_intCast_div_hundred (a : ℤ) :
    ⌊(a : ℚ) / 100⌋ = Int.fdiv a 100 := by
  rw [show (100 : ℚ) = ((100 : ℕ) : ℚ) by norm_num,
    Rat.floor_intCast_div_natCast, Int.fdiv_eq_ediv _ (by norm_num)]
  norm_num

theorem floor_intCast_div_four (a : ℤ) :
    ⌊(a : ℚ) / 4⌋ = Int.fdiv a 4 := by
  rw [show (4 : ℚ) = ((4 : ℕ) : ℚ) by norm_num,
    Rat.floor_intCast_div_natCast, Int.fdiv_eq_ediv _ (by norm_num)]
  norm_num

/-- C7: for every valid UTC civil datetime (year ≥ 1, month in 1..12) the
converter's output equals the spec's reference algorithm
(`julian_date_spec`, written solely from the spec's words): the only
differences — Python `int()` truncation versus mathematical floor, and
integer `//` versus rational floor division — vanish because every operand
is non-negative in the valid range.  The shared initial step (subtracting
the UTC offset) is performed identically by code and reference algorithm,
and the comparison quantifies over every UTC datetime so obtained. -/
theorem gregorian_to_julian_date_correct (dt : UTCDateTime)
    (hy : 1 ≤ dt.year) (hm1 : 1 ≤ dt.month) (hm2 : dt.month ≤ 12) :
    gregorian_to_julian_date dt = julian_date_spec dt := by
  unfold gregorian_to_julian_date julian_date_spec
  by_cases hm : dt.month ≤ 2
  · simp only [hm, if_true, reduceIte]
    have e1 : ((dt.year : ℚ) - 1) = (((dt.year - 1 : ℤ)) : ℚ) := by
      push_cast; ring
    have e2 : ((dt.month : ℚ) + 12) = (((dt.month + 12 : ℤ)) : ℚ) := by
      push_cast; ring
    rw [e1, e2]
    have hy0 : (0 : ℚ) ≤ ((dt.year - 1 : ℤ) : ℚ) := by
      exact_mod_cast (by omega : (0 : ℤ) ≤ dt.year - 1)
    have hm0 : (1 : ℚ) ≤ ((dt.month + 12 : ℤ) : ℚ) := by
      exact_mod_cast (by omega : (1 : ℤ) ≤ dt.month + 12)
    have h365 : (0 : ℚ) ≤ 365.25 * (((dt.year - 1 : ℤ) : ℚ) + 4716) := by
      nlinarith
    have h306 : (0 : ℚ) ≤ 30.6001 * (((dt.month + 12 : ℤ) : ℚ) + 1) := by
      nlinarith
    rw [pytrunc_eq_floor h365, pytrunc_eq_floor h306,
      floor_intCast_div_hundred (dt.year - 1),
      floor_intCast_div_four (Int.fdiv (dt.year - 1) 100)]
    push_cast
    ring
  · simp only [hm, if_false, reduceIte]
    have hy0 : (0 : ℚ) ≤ ((dt.year : ℤ) : ℚ) := by
      exact_mod_cast (by omega : (0 : ℤ) ≤ dt.year)
    have hm0 : (1 : ℚ) ≤ ((dt.month : ℤ) : ℚ) := by
      exact_mod_cast hm1
    have h365 : (0 : ℚ) ≤ 365.25 * (((dt.year : ℤ) : ℚ) + 4716) := by
      nlinarith
    have h306 : (0 : ℚ) ≤ 30.6001 * (((dt.month : ℤ) : ℚ) + 1) := by
      nlinarith
    rw [pytrunc_eq_floor h365, pytrunc_eq_floor h306,
      floor_intCast_div_hundred dt.year,
      floor_intCast_div_four (Int.fdiv dt.year 100)]
    push_cast
    ring

/-- C7 witness: the theorem applied at 2000-01-01 12:00 UTC. -/
theorem gregorian_to_julian_date_correct_witness :
    1 ≤ (⟨2000, 1, 1, 12, 0, 0⟩ : UTCDateTime).year ∧
    1 ≤ (⟨2000, 1, 1, 12, 0, 0⟩ : UTCDateTime).month ∧
    (⟨2000, 1, 1, 12, 0, 0⟩ : UTCDateTime).month ≤ 12 ∧
    gregorian_to_julian_date ⟨2000, 1, 1, 12, 0, 0⟩ =
      julian_date_spec ⟨2000, 1, 1, 12, 0, 0⟩ :=
  ⟨by norm_num, by norm_num, by norm_num,
    gregorian_to_julian_date_correct ⟨2000, 1, 1, 12, 0, 0⟩ (by norm_num)
      (by norm_num) (by norm_num)⟩

/-! ## Claim C4: Antardasha decomposition -/

theorem antardasha_loop_length (m : ℚ) (s : ℕ) :
    ∀ (fuel : ℕ) (i : ℕ) (cur : ℚ),
      (antardasha_loop m s i fuel cur).length = fuel := by
  intro fuel
  induction fuel with
  | zero => intro i cur; rfl
  | succ n ih =>
    intro i cur
    simp only [antardasha_loop, List.length_cons, ih]

theorem antardasha_loop_contig (m : ℚ) (s : ℕ) :
    ∀ (fuel : ℕ) (i : ℕ) (cur : ℚ) (k : ℕ), k + 1 < fuel →
      ((antardasha_loop m s i fuel cur).getD (k + 1)
          defaultAntardashaEntry).start =
        ((antardasha_loop m s i fuel cur).getD k
          defaultAntardashaEntry).stop := by
  intro fuel
  induction fuel with
  | zero => intro i cur k hk; omega
  | succ n ih =>
    intro i cur k hk
    match k with
    | 0 =>
      match n, hk with
      | n' + 1, _ =>
        simp only [antardasha_loop, List.getD_cons_succ, List.getD_cons_zero]
    | k' + 1 =>
      simp only [antardasha_loop, List.getD_cons_succ]
      exact ih (i + 1) _ k' (by omega)

theorem antardasha_loop_lords (m : ℚ) (s : ℕ) :
    ∀ (fuel : ℕ) (i : ℕ) (cur : ℚ),
      (antardasha_loop m s i fuel cur).map (fun e => e.lord) =
        (List.range fuel).map
          (fun k => DASHA_LORDS.getD ((s + (i + k)) % 9) "") := by
  intro fuel
  induction fuel with
  | zero => intro i cur; rfl
  | succ n ih =>
    intro i cur
    rw [List.range_succ_eq_map]
    simp only [antardasha_loop, List.map_cons, List.map_map, List.cons.injEq]
    constructor
    · simp
    · rw [ih (i + 1)]
      apply List.map_congr_left
      intro k _
      simp only [Function.comp_apply]
      congr 2
      omega

/-- C4: for every major-period lord (a key of the Dasha tables) and every
start datetime, `get_antardasha` returns exactly 9 sub-periods; the first
sub-period's lord is the major lord and its start is the major period's
start date; the sub-periods are contiguous (each entry's recorded start
date equals the previous entry's recorded end date); and the sub-period
durations `major_years × sub_lord_years / 120 × 365.25` summed over the 9
returned lords equal the major period's duration `major_years × 365.25`
days exactly. -/
theorem get_antardasha_spec (mahadasha_lord : String) (start_date : ℚ)
    (h : mahadasha_lord ∈ DASHA_LORDS) :
    ∃ l, get_antardasha mahadasha_lord start_date = some l ∧
      l.length = 9 ∧
      (l.headD defaultAntardashaEntry).lord = mahadasha_lord ∧
      (l.headD defaultAntardashaEntry).start = ⌊start_date⌋ ∧
      (∀ k, k < 8 →
        (l.getD (k + 1) defaultAntardashaEntry).start =
          (l.getD k defaultAntardashaEntry).stop) ∧
      (l.map (fun e => DASHA_YEARS mahadasha_lord * DASHA_YEARS e.lord / 120 *
        (365.25 : ℚ))).sum = DASHA_YEARS mahadasha_lord * 365.25 := by
  have hsum : ∀ l : List AntardashaEntry,
      (l.map (fun e => DASHA_YEARS mahadasha_lord * DASHA_YEARS e.lord / 120 *
        (365.25 : ℚ))).sum =
      ((l.map (fun e => e.lord)).map
        (fun s => DASHA_YEARS mahadasha_lord * DASHA_YEARS s / 120 *
          (365.25 : ℚ))).sum := by
    intro l
    rw [List.map_map]
    rfl
  fin_cases h <;>
    refine ⟨_, rfl, antardasha_loop_length _ _ 9 0 start_date, rfl, rfl,
      (fun k hk => antardasha_loop_contig _ _ 9 0 start_date k (by omega)),
      ?_⟩ <;>
    rw [hsum, antardasha_loop_lords] <;>
    with_unfolding_all rfl

/-- C4 witness: the Sun major period started at datetime 0. -/
theorem get_antardasha_spec_witness :
    "Sun" ∈ DASHA_LORDS ∧
    (∃ l, get_antardasha "Sun" 0 = some l ∧
      l.length = 9 ∧
      (l.headD defaultAntardashaEntry).lord = "Sun" ∧
      (l.headD defaultAntardashaEntry).start = ⌊(0 : ℚ)⌋ ∧
      (∀ k, k < 8 →
        (l.getD (k + 1) defaultAntardashaEntry).start =
          (l.getD k defaultAntardashaEntry).stop) ∧
      (l.map (fun e => DASHA_YEARS "Sun" * DASHA_YEARS e.lord / 120 *
        (365.25 : ℚ))).sum = DASHA_YEARS "Sun" * 365.25) :=
  ⟨by decide, get_antardasha_spec "Sun" 0 (by decide)⟩

/-! ## Claim C8: totality of house assignment -/

theorem lst_nonneg (jd lon : ℚ) :
    0 ≤ calculate_local_sidereal_time jd lon := by
  unfold calculate_local_sidereal_time
  exact fmod_nonneg _ (by norm_num)

theorem lst_lt (jd lon : ℚ) : calculate_local_sidereal_time jd lon < 360 := by
  unfold calculate_local_sidereal_time
  exact fmod_lt _ (by norm_num)

theorem fmod_add_nat_mul (x : ℚ) {y : ℚ} (hy : 0 < y) (n : ℕ) :
    fmod (x + (n : ℚ) * y) y = fmod x y := by
  have h := fmod_add_int_mul x hy (n : ℤ)
  rw [Int.cast_natCast] at h
  exact h

/-- Arithmetic core: the sign index stored for the cusp at offset `k × 30°`
from a sidereal time `lst ∈ [0, 360)` is `(⌊lst/30⌋ + k) mod 12`. -/
theorem cusp_sign_index (lst : ℚ) (h0 : 0 ≤ lst) (h1 : lst < 360) (k : ℕ) :
    ((pytrunc (fmod (lst + (k : ℚ) * 30) 360 / 30)).emod 12).toNat =
      ((⌊lst / 30⌋).toNat + k) % 12 := by
  have hq0 : (0 : ℤ) ≤ ⌊lst / 30⌋ :=
    Int.floor_nonneg.mpr (by positivity)
  set q : ℤ := ⌊lst / 30⌋ with hqdef
  have hfl : (q : ℚ) ≤ lst / 30 := Int.floor_le _
  have hfu : lst / 30 < (q : ℚ) + 1 := Int.lt_floor_add_one _
  have hql : (q : ℚ) * 30 ≤ lst := (le_div_iff₀ (by norm_num)).mp hfl
  have hqu : lst < ((q : ℚ) + 1) * 30 := (div_lt_iff₀ (by norm_num)).mp hfu
  set K : ℕ := q.toNat + k with hKdef
  have hq_toNat : ((q.toNat : ℕ) : ℚ) = (q : ℚ) := by
    exact_mod_cast congrArg (fun z : ℤ => (z : ℚ)) (Int.toNat_of_nonneg hq0)
  have hK : ((K % 12 : ℕ) : ℚ) + 12 * ((K / 12 : ℕ) : ℚ) =
      (q : ℚ) + (k : ℚ) := by
    have hnat : ((K % 12 : ℕ) : ℚ) + 12 * ((K / 12 : ℕ) : ℚ) = (K : ℚ) := by
      exact_mod_cast Nat.mod_add_div K 12
    rw [hnat, hKdef]
    push_cast
    rw [hq_toNat]
  have hb12 : K % 12 < 12 := Nat.mod_lt _ (by norm_num)
  have hbq : ((K % 12 : ℕ) : ℚ) ≤ 11 := by
    exact_mod_cast (by omega : K % 12 ≤ 11)
  have hbn : (0 : ℚ) ≤ ((K % 12 : ℕ) : ℚ) := Nat.cast_nonneg _
  have hr0 : 0 ≤ lst - 30 * (q : ℚ) := by linarith
  have hr30 : lst - 30 * (q : ℚ) < 30 := by linarith
  have hsplit : lst + (k : ℚ) * 30 =
      (30 * ((K % 12 : ℕ) : ℚ) + (lst - 30 * (q : ℚ))) +
        ((K / 12 : ℕ) : ℚ) * 360 := by linarith
  rw [hsplit, fmod_add_nat_mul _ (by norm_num),
    fmod_eq_self (by norm_num) (by linarith) (by linarith)]
  have harg0 : 0 ≤ (30 * ((K % 12 : ℕ) : ℚ) + (lst - 30 * (q : ℚ))) / 30 :=
    div_nonneg (by linarith) (by norm_num)
  rw [pytrunc_eq_floor harg0]
  have hcast : (((K % 12 : ℕ) : ℤ) : ℚ) = ((K % 12 : ℕ) : ℚ) :=
    Int.cast_natCast _
  have hfloor : ⌊(30 * ((K % 12 : ℕ) : ℚ) + (lst - 30 * (q : ℚ))) / 30⌋ =
      ((K % 12 : ℕ) : ℤ) := by
    rw [Int.floor_eq_iff]
    constructor
    · rw [hcast, le_div_iff₀ (by norm_num)]
      linarith
    · rw [div_lt_iff₀ (by norm_num), hcast]
      linarith
  rw [hfloor]
  show ((((K % 12 : ℕ) : ℤ)) % 12).toNat = K % 12
  omega

theorem calculate_houses_getD (jd lat lonG : ℚ) (k : ℕ) (hk : k < 12) :
    (calculate_houses jd lat lonG).getD k "" =
      ZODIAC_SIGNS.getD
        (((⌊calculate_local_sidereal_time jd lonG / 30⌋).toNat + k) % 12)
        "" := by
  have h0 := lst_nonneg jd lonG
  have h1 := lst_lt jd lonG
  show ((List.range 12).map (fun (k2 : ℕ) =>
      ZODIAC_SIGNS.getD
        ((pytrunc (fmod (calculate_local_sidereal_time jd lonG +
          (((k2 : ℚ) + 1) - 1) * 30) 360 / 30)).emod 12).toNat "")).getD k ""
    = _
  rw [List.getD_eq_getElem?_getD, List.getElem?_map, List.getElem?_range hk]
  show ZODIAC_SIGNS.getD
      ((pytrunc (fmod (calculate_local_sidereal_time jd lonG +
        (((k : ℚ) + 1) - 1) * 30) 360 / 30)).emod 12).toNat "" = _
  rw [show (((k : ℚ) + 1) - 1) = (k : ℚ) by ring, cusp_sign_index _ h0 h1 k]

theorem cusp_lon_of_sign (m : ℕ) (hm : m < 12) :
    get_house_cusp_longitude (ZODIAC_SIGNS.getD m "") = 30 * (m : ℚ) := by
  interval_cases m <;> with_unfolding_all rfl

theorem house_match_eq (houses : List String) (L : ℚ) (i : ℕ) :
    house_match houses L i =
      decide ((get_house_cusp_longitude (houses.getD (i - 1) "") ≤ L ∧
          L < get_house_cusp_longitude (houses.getD (i % 12 + 1 - 1) "")) ∨
        (get_house_cusp_longitude (houses.getD (i - 1) "") >
            get_house_cusp_longitude (houses.getD (i % 12 + 1 - 1) "") ∧
          (L ≥ get_house_cusp_longitude (houses.getD (i - 1) "") ∨
            L < get_house_cusp_longitude (houses.getD (i % 12 + 1 - 1) "")))) :=
  rfl

theorem floor_div30_eq_iff (L : ℚ) (h0 : 0 ≤ L) (b : ℕ) :
    (⌊L / 30⌋).toNat = b ↔ 30 * (b : ℚ) ≤ L ∧ L < 30 * ((b : ℚ) + 1) := by
  have hfl0 : (0 : ℤ) ≤ ⌊L / 30⌋ := Int.floor_nonneg.mpr (by positivity)
  have hiff1 : ((b : ℤ) ≤ ⌊L / 30⌋) ↔ 30 * (b : ℚ) ≤ L := by
    rw [Int.le_floor, le_div_iff₀ (by norm_num : (0 : ℚ) < 30)]
    push_cast
    constructor <;> intro <;> linarith
  have hiff2 : (⌊L / 30⌋ < (b : ℤ) + 1) ↔ L < 30 * ((b : ℚ) + 1) := by
    rw [Int.floor_lt, div_lt_iff₀ (by norm_num : (0 : ℚ) < 30)]
    push_cast
    constructor <;> intro <;> linarith
  constructor
  · intro h
    exact ⟨hiff1.mp (by omega), hiff2.mp (by omega)⟩
  · rintro ⟨ha, hb2⟩
    have h3 := hiff1.mpr ha
    have h4 := hiff2.mpr hb2
    omega

theorem match_range_iff (b : ℕ) (hb : b < 12) (L : ℚ)
    (h0 : 0 ≤ L) (h1 : L < 360) :
    ((30 * (b : ℚ) ≤ L ∧ L < 30 * (((b + 1) % 12 : ℕ) : ℚ)) ∨
      (30 * (b : ℚ) > 30 * (((b + 1) % 12 : ℕ) : ℚ) ∧
        (L ≥ 30 * (b : ℚ) ∨ L < 30 * (((b + 1) % 12 : ℕ) : ℚ)))) ↔
      (⌊L / 30⌋).toNat = b := by
  rw [floor_div30_eq_iff L h0 b]
  by_cases hb11 : b = 11
  · subst hb11
    rw [show ((11 + 1) % 12 : ℕ) = 0 from rfl]
    push_cast
    constructor
    · rintro (⟨ha, hb2⟩ | ⟨_, (hge | hlt)⟩)
      · constructor <;> linarith
      · constructor <;> linarith
      · linarith
    · rintro ⟨ha, hb2⟩
      exact Or.inr ⟨by linarith, Or.inl (by linarith)⟩
  · rw [Nat.mod_eq_of_lt (by omega : b + 1 < 12)]
    push_cast
    constructor
    · rintro (⟨ha, hb2⟩ | ⟨hgt, _⟩)
      · constructor <;> linarith
      · linarith
    · rintro ⟨ha, hb2⟩
      exact Or.inl ⟨by linarith, by linarith⟩

theorem floor_div30_toNat_lt (x : ℚ) (h0 : 0 ≤ x) (h1 : x < 360) :
    (⌊x / 30⌋).toNat < 12 := by
  rw [Int.toNat_lt (Int.floor_nonneg.mpr (div_nonneg h0 (by norm_num)))]
  exact Int.floor_lt.mpr (by
    rw [div_lt_iff₀ (by norm_num)]
    push_cast
    linarith)

theorem house_match_iff (jd lat lonG L : ℚ) (h0 : 0 ≤ L) (h1 : L < 360)
    (i : ℕ) (hi1 : 1 ≤ i) (hi2 : i ≤ 12) :
    (house_match (calculate_houses jd lat lonG) L i = true ↔
      ((⌊calculate_local_sidereal_time jd lonG / 30⌋).toNat + (i - 1)) % 12 =
        (⌊L / 30⌋).toNat) := by
  set b := ((⌊calculate_local_sidereal_time jd lonG / 30⌋).toNat + (i - 1)) % 12
    with hbdef
  have hb12 : b < 12 := Nat.mod_lt _ (by norm_num)
  have hs : get_house_cusp_longitude
      ((calculate_houses jd lat lonG).getD (i - 1) "") = 30 * (b : ℚ) := by
    rw [calculate_houses_getD jd lat lonG (i - 1) (by omega), ← hbdef]
    exact cusp_lon_of_sign b hb12
  have he : get_house_cusp_longitude
      ((calculate_houses jd lat lonG).getD (i % 12 + 1 - 1) "") =
      30 * (((b + 1) % 12 : ℕ) : ℚ) := by
    rw [show i % 12 + 1 - 1 = i % 12 from rfl]
    rw [calculate_houses_getD jd lat lonG (i % 12)
      (Nat.mod_lt _ (by norm_num))]
    rw [show ((⌊calculate_local_sidereal_time jd lonG / 30⌋).toNat + i % 12) %
        12 = (b + 1) % 12 from by rw [hbdef]; omega]
    exact cusp_lon_of_sign _ (Nat.mod_lt _ (by norm_num))
  rw [house_match_eq, hs, he, decide_eq_true_iff,
    match_range_iff b hb12 L h0 h1]
  exact eq_comm

theorem house_index_exists_unique (q j : ℕ) (hq : q < 12) (hj : j < 12) :
    ((j + 12 - q) % 12 + 1) ∈ List.range' 1 12 ∧
    (q + (((j + 12 - q) % 12 + 1) - 1)) % 12 = j ∧
    ∀ i ∈ List.range' 1 12, (q + (i - 1)) % 12 = j →
      i = (j + 12 - q) % 12 + 1 := by
  interval_cases q <;> interval_cases j <;> decide

theorem get_house_opt_spec (jd lat L : ℚ) (h0 : 0 ≤ L) (h1 : L < 360) :
    ∃ i, get_house_opt L lat jd = some i ∧ 1 ≤ i ∧ i ≤ 12 ∧
      house_match (calculate_houses jd lat 0) L i = true ∧
      get_house L lat jd = i := by
  have hq12 : (⌊calculate_local_sidereal_time jd 0 / 30⌋).toNat < 12 :=
    floor_div30_toNat_lt _ (lst_nonneg jd 0) (lst_lt jd 0)
  have hj12 : (⌊L / 30⌋).toNat < 12 := floor_div30_toNat_lt _ h0 h1
  obtain ⟨hmem, hmatch, huniq⟩ := house_index_exists_unique
    (⌊calculate_local_sidereal_time jd 0 / 30⌋).toNat (⌊L / 30⌋).toNat
    hq12 hj12
  have hb0 := List.mem_range'_1.mp hmem
  have hmatch0 : house_match (calculate_houses jd lat 0) L
      (((⌊L / 30⌋).toNat + 12 -
        (⌊calculate_local_sidereal_time jd 0 / 30⌋).toNat) % 12 + 1) = true :=
    (house_match_iff jd lat 0 L h0 h1 _ hb0.1 (by omega)).mpr hmatch
  have hex : ∃ x ∈ List.range' 1 12,
      house_match (calculate_houses jd lat 0) L x = true :=
    ⟨_, hmem, hmatch0⟩
  have hnorm : fmod L 360 = L := fmod_eq_self (by norm_num) h0 h1
  have hopt : get_house_opt L lat jd =
      (List.range' 1 12).find? (house_match (calculate_houses jd lat 0) L) := by
    show (List.range' 1 12).find?
      (house_match (calculate_houses jd lat 0) (fmod L 360)) = _
    rw [hnorm]
  obtain ⟨i, hfind⟩ :=
    Option.isSome_iff_exists.mp (List.find?_isSome.mpr hex)
  have hpi := List.find?_some hfind
  have hmemi := List.mem_of_find?_eq_some hfind
  have hbounds := List.mem_range'_1.mp hmemi
  refine ⟨i, by rw [hopt]; exact hfind, hbounds.1, by omega, hpi, ?_⟩
  show (get_house_opt L lat jd).getD 1 = i
  rw [hopt, hfind]
  rfl

/-- C8: house assignment is total: for any house table produced by
`_calculate_houses` (any Julian Date, latitude and geographic longitude)
and any longitude `L ∈ [0, 360)`, exactly one house index in 1..12 has a
circular cusp range containing `L`; and `_get_house` (whose table fixes
geographic longitude 0) finds it — the search returns `some`, so the
fall-through default branch returning house 1 is unreachable. -/
theorem house_assignment_total (jd lat lonG L : ℚ)
    (h0 : 0 ≤ L) (h1 : L < 360) :
    (∃! i, i ∈ List.range' 1 12 ∧
      house_match (calculate_houses jd lat lonG) L i = true) ∧
    (∃ i, get_house_opt L lat jd = some i ∧ 1 ≤ i ∧ i ≤ 12 ∧
      get_house L lat jd = i) := by
  constructor
  · have hq12 : (⌊calculate_local_sidereal_time jd lonG / 30⌋).toNat < 12 :=
      floor_div30_toNat_lt _ (lst_nonneg jd lonG) (lst_lt jd lonG)
    have hj12 : (⌊L / 30⌋).toNat < 12 := floor_div30_toNat_lt _ h0 h1
    obtain ⟨hmem, hmatch, huniq⟩ := house_index_exists_unique
      (⌊calculate_local_sidereal_time jd lonG / 30⌋).toNat (⌊L / 30⌋).toNat
      hq12 hj12
    have hb0 := List.mem_range'_1.mp hmem
    refine ⟨_, ⟨hmem,
      (house_match_iff jd lat lonG L h0 h1 _ hb0.1 (by omega)).mpr hmatch⟩,
      ?_⟩
    rintro i2 ⟨hm2, hp2⟩
    have hb2 := List.mem_range'_1.mp hm2
    exact huniq i2 hm2
      ((house_match_iff jd lat lonG L h0 h1 i2 hb2.1 (by omega)).mp hp2)
  · obtain ⟨i, ha, hb, hc, _, he⟩ := get_house_opt_spec jd lat L h0 h1
    exact ⟨i, ha, hb, hc, he⟩

/-- C8 witness: the theorem applied at the J2000 Julian Date, latitude 19,
geographic longitude 72, planet longitude 45°. -/
theorem house_assignment_total_witness :
    (0 : ℚ) ≤ 45 ∧ (45 : ℚ) < 360 ∧
    ((∃! i, i ∈ List.range' 1 12 ∧
      house_match (calculate_houses 2451545 19 72) 45 i = true) ∧
    (∃ i, get_house_opt 45 19 2451545 = some i ∧ 1 ≤ i ∧ i ≤ 12 ∧
      get_house 45 19 2451545 = i)) :=
  ⟨by norm_num, by norm_num,
    house_assignment_total 2451545 19 72 45 (by norm_num) (by norm_num)⟩
